import Mathlib

/-!
Verification of the nutrition-resolution pipeline of the ai_nutritiolog_bot
repository against its natural-language specification.  Python floats are
modelled as exact rationals (ℚ); Python `round` is modelled as decimal
round-half-to-even; Python dictionaries with optional keys are modelled as
structures with `Option` fields; a raised Python exception is modelled with
an explicit error value (`Except` / `PyOutcome`), and a `try/except` block
as a `match` on that value.
-/

set_option maxRecDepth 8000

/-! ## Python numeric primitives -/

/-- Round-half-to-even to the nearest integer, the rule used by Python `round`. -/
def pyRoundInt (q : ℚ) : ℤ :=
  if q - ⌊q⌋ < 1/2 then ⌊q⌋
  else if 1/2 < q - ⌊q⌋ then ⌊q⌋ + 1
  else if ⌊q⌋ % 2 = 0 then ⌊q⌋ else ⌊q⌋ + 1

/-- Python `round(x, n)`: round-half-to-even at `n` decimal digits. -/
def pyRound (q : ℚ) (n : ℕ) : ℚ := (pyRoundInt (q * 10 ^ n) : ℚ) / 10 ^ n

/-- Python truthiness of an optional number (`None` and `0` are falsy). -/
def py_truthy_q : Option ℚ → Bool
  | none => false
  | some x => x != 0

/-- Python truthiness of an optional integer (`None` and `0` are falsy). -/
def py_truthy_int : Option ℤ → Bool
  | none => false
  | some n => n != 0

/-- Python truthiness of an optional string (`None` and `""` are falsy). -/
def py_truthy_str : Option String → Bool
  | none => false
  | some s => s != ""

/-! ## Python string primitives

Only the character classes actually reachable from the bot's inputs
(ASCII and the Cyrillic block) are modelled for `lower`, `\w` and `\d`. -/

/-- Python `str.lower` on one character (ASCII plus the Cyrillic block). -/
def pyLowerChar (c : Char) : Char :=
  if 'A' ≤ c && c ≤ 'Z' then Char.ofNat (c.toNat + 32)
  else if 0x410 ≤ c.toNat && c.toNat ≤ 0x42F then Char.ofNat (c.toNat + 0x20)
  else if c.toNat = 0x401 then Char.ofNat 0x451
  else c

/-- Python `str.lower`. -/
def pyLower (s : String) : String := String.mk (s.data.map pyLowerChar)

/-- Whitespace characters stripped by Python `str.strip` and matched by `\s`. -/
def isSpaceCh (c : Char) : Bool :=
  c = ' ' || c = '\t' || c = '\n' || c = '\r' || c = Char.ofNat 11 || c = Char.ofNat 12

/-- Python `str.strip`. -/
def pyStrip (s : String) : String :=
  String.mk (((s.data.dropWhile isSpaceCh).reverse.dropWhile isSpaceCh).reverse)

/-- ASCII decimal digit, the `\d` class on the bot's inputs. -/
def isDigitCh (c : Char) : Bool := '0' ≤ c && c ≤ '9'

/-- Word character (`\w`): ASCII alphanumerics, underscore, Cyrillic letters. -/
def isWordCh (c : Char) : Bool :=
  isDigitCh c || ('a' ≤ c && c ≤ 'z') || ('A' ≤ c && c ≤ 'Z') || c = '_'
    || (0x400 ≤ c.toNat && c.toNat ≤ 0x4FF)

/-- List-of-characters prefix test. -/
def isPrefixL : List Char → List Char → Bool
  | [], _ => true
  | _ :: _, [] => false
  | a :: as, b :: bs => a == b && isPrefixL as bs

/-- Substring occurrence test (`needle` occurs somewhere inside the list). -/
def isSubL (needle : List Char) : List Char → Bool
  | [] => needle.isEmpty
  | c :: cs => isPrefixL needle (c :: cs) || isSubL needle cs

/-- Python `needle in hay` for strings. -/
def pyContains (hay needle : String) : Bool := isSubL needle.data hay.data

/-- Python `content[:n]`. -/
def pyTake (n : ℕ) (s : String) : String := String.mk (s.data.take n)

/-- Does some suffix position of the list satisfy the matcher (`re.search`)? -/
def anyPosition (p : List Char → Bool) : List Char → Bool
  | [] => p []
  | c :: cs => p (c :: cs) || anyPosition p cs

/-- An anchored `^(alt1|alt2|...).*` pattern: the text starts with an alternative. -/
def startsWithAny (ps : List String) (s : String) : Bool :=
  ps.any (fun p => isPrefixL p.data s.data)

/-- An anchored `^(alt1|alt2|...)$` pattern: the text equals an alternative. -/
def equalsAny (ps : List String) (s : String) : Bool :=
  ps.any (fun p => p == s)

/-- Every character of the text belongs to the given class (`^[...]*$`). -/
def allCharsIn (cls : List Char) (s : String) : Bool :=
  s.data.all (fun c => cls.contains c)

/-- Helper for reading runs of consecutive digits (Python `re.findall(r"\d+", s)`). -/
def digitRunsAux : List Char → List Char → List (List Char)
  | acc, [] => if acc.isEmpty then [] else [acc.reverse]
  | acc, c :: cs =>
    if isDigitCh c then digitRunsAux (c :: acc) cs
    else (if acc.isEmpty then [] else [acc.reverse]) ++ digitRunsAux [] cs

/-- All maximal runs of consecutive digits in a character list. -/
def digitRuns (cs : List Char) : List (List Char) := digitRunsAux [] cs

/-- Python `int` on a run of ASCII digits. -/
def natOfDigits (ds : List Char) : ℕ :=
  ds.foldl (fun n c => n * 10 + (c.toNat - 48)) 0

/-- The opening-brace character, written by code point to keep it out of source text. -/
def openBrace : Char := Char.ofNat 123

/-- The closing-brace character, written by code point. -/
def closeBrace : Char := Char.ofNat 125

/-- A single-quote (apostrophe) string, written by code point. -/
def sqMark : String := String.mk [Char.ofNat 39]

/-- Index of the first occurrence of a character (Python `str.find`). -/
def firstIdxOf (c : Char) : List Char → Option ℕ
  | [] => none
  | x :: xs => if x = c then some 0 else (firstIdxOf c xs).map (· + 1)

/-- Index of the last occurrence of a character (Python `str.rfind`). -/
def lastIdxOf (c : Char) (cs : List Char) : Option ℕ :=
  (firstIdxOf c cs.reverse).map (fun k => cs.length - 1 - k)

/-! ## The macro calculator (`bot/services/nutrition_calculator.py`) -/

/-- The nullable profile columns of `TelegramUser` used by the calculator. -/
structure TelegramUser where
  age : Option ℤ
  weight : Option ℚ
  height : Option ℚ
  gender : Option String
  activity_level : Option String
  goal : Option String
deriving DecidableEq

/-- The `ACTIVITY_MULTIPLIERS` dictionary of `NutritionCalculator`. -/
def activity_multiplier_lookup (s : String) : Option ℚ :=
  if s = "sedentary" then some 1.2
  else if s = "lightly_active" then some 1.375
  else if s = "moderately_active" then some 1.55
  else if s = "very_active" then some 1.725
  else if s = "extremely_active" then some 1.9
  else none

/-- The `GOAL_ADJUSTMENTS` dictionary, with the `.get(goal, 0)` default. -/
def goal_adjustment_lookup (s : String) : ℚ :=
  if s = "weight_loss" then -500
  else if s = "weight_gain" then 500
  else if s = "maintain_weight" then 0
  else 0

/-- `NutritionCalculator.calculate_bmr`: Mifflin-St Jeor with Python
truthiness on the guard `not all([weight, height, age, gender])`. -/
def calculate_bmr (user : TelegramUser) : Option ℚ :=
  if !(py_truthy_q user.weight && py_truthy_q user.height
        && py_truthy_int user.age && py_truthy_str user.gender) then none
  else
    let bmr := 10 * user.weight.getD 0 + 6.25 * user.height.getD 0 - 5 * (user.age.getD 0 : ℚ)
    if user.gender = some "male" then some (pyRound (bmr + 5) 0)
    else if user.gender = some "female" then some (pyRound (bmr - 161) 0)
    else none

/-- `NutritionCalculator.calculate_tdee`. -/
def calculate_tdee (user : TelegramUser) : Option ℚ :=
  let bmr := calculate_bmr user
  if !(py_truthy_q bmr) || !(py_truthy_str user.activity_level) then none
  else
    let am := activity_multiplier_lookup (user.activity_level.getD "")
    if !(py_truthy_q am) then none
    else some (pyRound (bmr.getD 0 * am.getD 0) 0)

/-- `NutritionCalculator.calculate_target_calories`. -/
def calculate_target_calories (user : TelegramUser) : Option ℚ :=
  let tdee := calculate_tdee user
  if !(py_truthy_q tdee) || !(py_truthy_str user.goal) then none
  else
    let target := tdee.getD 0 + goal_adjustment_lookup (user.goal.getD "")
    let min_calories : ℚ := if user.gender = some "female" then 1200 else 1500
    some (pyRound (max target min_calories) 0)

/-- The profile of the spec scenario for the calculator. -/
def scenarioUser : TelegramUser :=
  { age := some 30, weight := some 70, height := some 175,
    gender := some "male", activity_level := some "sedentary",
    goal := some "maintain_weight" }

/-! ## The analysis data model

Raw oracle payloads are JSON-shaped dictionaries: every key may be absent,
which is modelled with `Option` fields.  A portion entry may also fail the
`isinstance(portion, dict)` check, hence the extra constructor. -/

/-- A raw `nutrition_per_100g` dictionary from the oracle. -/
structure RawNutrition where
  calories : Option ℚ
  protein : Option ℚ
  fat : Option ℚ
  carbs : Option ℚ
deriving DecidableEq

/-- A raw entry of the oracle's `portion_options` list. -/
inductive RawPortion where
  | dict (size : Option String) (weight : Option ℚ) (description : Option String)
  | notDict
deriving DecidableEq

/-- A raw food-analysis dictionary from the oracle. -/
structure RawAnalysis where
  is_food : Option Bool
  food_name : Option String
  description : Option String
  portion_options : Option (List RawPortion)
  nutrition_per_100g : Option RawNutrition
deriving DecidableEq

/-- The raw dictionary with no keys (`{}`). -/
def emptyRawAnalysis : RawAnalysis :=
  { is_food := none, food_name := none, description := none,
    portion_options := none, nutrition_per_100g := none }

/-- A normalized `nutrition_per_100g` record (all keys present). -/
structure Nutrition100 where
  calories : ℚ
  protein : ℚ
  fat : ℚ
  carbs : ℚ
deriving DecidableEq

/-- A normalized portion option (all keys present). -/
structure PortionOption where
  size : String
  weight : ℚ
  description : String
deriving DecidableEq

/-- A normalized food analysis as produced by `_process_analysis_result`. -/
structure FoodAnalysis where
  is_food : Bool
  food_name : String
  description : String
  portion_options : List PortionOption
  nutrition_per_100g : Nutrition100
deriving DecidableEq

/-- The computed nutrition for one selected portion. -/
structure ResolvedNutrition where
  total_calories : ℚ
  total_protein : ℚ
  total_fat : ℚ
  total_carbs : ℚ
  portion_weight : ℚ
deriving DecidableEq

/-! ## Oracle response parsing (`langgraph_service._parse_food_analysis_response`)

The JSON deserializer itself (`json.loads`) is an external library; it is
modelled as a parameter `decode`, with `none` standing for a raised
`json.JSONDecodeError`. -/

/-- The `content[first '\x7b' : last '\x7d' + 1]` slice extraction; `none` models
the raised `ValueError` when either brace is missing. -/
def extract_json_slice (content : String) : Option String :=
  let cs := content.data
  match firstIdxOf openBrace cs, lastIdxOf closeBrace cs with
  | some i, some j => some (String.mk ((cs.drop i).take (j + 1 - i)))
  | _, _ => none

/-- The default structure returned by `_parse_food_analysis_response` when
parsing fails. -/
def parse_failure_result : RawAnalysis :=
  { is_food := some false, food_name := some "",
    description := some "Ошибка анализа - не удалось определить блюдо",
    portion_options := some [],
    nutrition_per_100g := some { calories := some 0, protein := some 0, fat := some 0, carbs := some 0 } }

/-- The `try` block of `_parse_food_analysis_response`: slice extraction plus
`json.loads`, either of which may raise. -/
def parse_food_analysis_body (content : String)
    (decode : String → Option RawAnalysis) : Except String RawAnalysis :=
  match extract_json_slice content with
  | none => Except.error "No JSON found in response"
  | some s =>
    match decode s with
    | none => Except.error "json.JSONDecodeError"
    | some a => Except.ok a

/-- `_parse_food_analysis_response`: the `except` clause catches both failure
kinds and returns the default not-food structure, so the function is total. -/
def parse_food_analysis_response (content : String)
    (decode : String → Option RawAnalysis) : RawAnalysis :=
  match parse_food_analysis_body content decode with
  | Except.ok a => a
  | Except.error _ => parse_failure_result

/-- `langgraph_service.analyze_food_text_with_langgraph`: one oracle round
trip (the reply text is the `content` parameter) followed by parsing. -/
def analyze_food_text_with_langgraph (content : String)
    (decode : String → Option RawAnalysis) : RawAnalysis :=
  parse_food_analysis_response content decode

/-! ## Result normalization (`nutrition_analyzer._process_analysis_result`) -/

/-- Convenience constructor for the generated default portions, whose
dictionaries always carry all three keys. -/
def mkP (size : String) (weight : ℚ) (description : String) : RawPortion :=
  RawPortion.dict (some size) (some weight) (some description)

/-- `nutrition_analyzer._generate_smart_default_portions`.  The empty list in
the drinks branch corresponds to Python falling off the end of the function
(returning `None`); it is unreachable because the enclosing guard requires
one of the four container substrings to occur. -/
def generate_smart_default_portions (food_name : String) : List RawPortion :=
  let food_lower := pyLower food_name
  let numbers := digitRuns food_name.data
  if ["банан", "яблок", "апельсин", "груш"].any (fun f => pyContains food_lower f) then
    match numbers with
    | n :: _ =>
        let qty := natOfDigits n
        [mkP "exact" ((qty : ℚ) * 120) (toString qty ++ " шт")]
    | [] =>
        [mkP "small" 120 "1 штука", mkP "medium" 240 "2 штуки", mkP "large" 360 "3 штуки"]
  else if ["хлеб", "булочк", "батон", "кусочек"].any (fun b => pyContains food_lower b) then
    if pyContains food_lower "кусочек" || !numbers.isEmpty then
      [mkP "exact" 30 "кусочек"]
    else
      [mkP "small" 30 "1 кусочек", mkP "medium" 60 "2 кусочка", mkP "large" 90 "3 кусочка"]
  else if ["стакан", "кружк", "чашк", "бутылк"].any (fun d => pyContains food_lower d) then
    if pyContains food_lower "стакан" then [mkP "exact" 250 "стакан"]
    else if pyContains food_lower "кружк" || pyContains food_lower "чашк" then
      [mkP "exact" 300 "кружка"]
    else if pyContains food_lower "бутылк" then [mkP "exact" 500 "бутылка"]
    else []
  else if ["суп", "борщ", "щи", "похлебк"].any (fun t => pyContains food_lower t) then
    if pyContains food_lower "тарелк" then [mkP "exact" 300 "тарелка"]
    else
      [mkP "small" 200 "полтарелки", mkP "medium" 300 "тарелка", mkP "large" 400 "большая тарелка"]
  else if ["каш", "овсянк", "гречк", "рис"].any (fun z => pyContains food_lower z) then
    if pyContains food_lower "тарелк" then [mkP "exact" 200 "тарелка каши"]
    else
      [mkP "small" 150 "маленькая порция", mkP "medium" 200 "средняя порция",
       mkP "large" 250 "большая порция"]
  else
    match numbers with
    | n :: _ =>
        let qty := natOfDigits n
        [mkP "exact" ((qty : ℚ) * 100) (toString qty ++ " порций")]
    | [] =>
        [mkP "small" 100 "маленькая порция", mkP "medium" 200 "средняя порция",
         mkP "large" 300 "большая порция"]

/-- Clamping of a nutrient value to `[0, hi]` (`max(0, min(value, hi))`). -/
def clamp_nutrient (v : ℚ) (hi : ℚ) : ℚ := max 0 (min v hi)

/-- One iteration of the portion-processing loop: entries that are
dictionaries with both `size` and `weight` keys are kept with the weight
clamped to `[50, 1000]`; all other entries are dropped silently. -/
def clamp_portion : RawPortion → Option PortionOption
  | RawPortion.dict (some sz) (some w) d =>
      some { size := sz, weight := max 50 (min w 1000),
             description := d.getD (sz ++ " порция") }
  | _ => none

/-- `nutrition_analyzer._process_analysis_result`. -/
def process_analysis_result (analysis : RawAnalysis) : FoodAnalysis :=
  if analysis.is_food ≠ some true then
    { is_food := false, food_name := "",
      description := analysis.description.getD "На изображении не обнаружена еда",
      portion_options := [],
      nutrition_per_100g := { calories := 0, protein := 0, fat := 0, carbs := 0 } }
  else
    let food_name := analysis.food_name.getD "Неизвестное блюдо"
    let nut := analysis.nutrition_per_100g.getD
      { calories := none, protein := none, fat := none, carbs := none }
    let processed_nut : Nutrition100 :=
      { calories := clamp_nutrient (nut.calories.getD 0) 900,
        protein := clamp_nutrient (nut.protein.getD 0) 100,
        fat := clamp_nutrient (nut.fat.getD 0) 100,
        carbs := clamp_nutrient (nut.carbs.getD 0) 100 }
    let portionsIn := analysis.portion_options.getD []
    let portions :=
      if portionsIn.isEmpty then generate_smart_default_portions food_name else portionsIn
    let processed_portions := portions.filterMap clamp_portion
    { is_food := true, food_name := food_name,
      description := analysis.description.getD "Описание недоступно",
      portion_options :=
        if processed_portions.isEmpty then
          [{ size := "exact", weight := 200, description := "стандартная порция" }]
        else processed_portions,
      nutrition_per_100g := processed_nut }

/-! ## Agent-side validation (`food_input_agent._validate_food_analysis`) -/

/-- The deny-list of generic placeholder food names. -/
def food_name_deny_list : List String :=
  ["неизвестное блюдо", "неопределенное блюдо", "", "как дела"]

/-- The local variable `nutrition = analysis["nutrition_per_100g"]` of
`_validate_food_analysis` (the key is known present when it is read). -/
def validate_nutrition_dict (a : RawAnalysis) : RawNutrition :=
  a.nutrition_per_100g.getD { calories := none, protein := none, fat := none, carbs := none }

/-- `_validate_food_analysis`, continued: the checks on the local variables
`food_name` (stripped) and `nutrition` are written with the locals inlined. -/
def validate_food_analysis (a : RawAnalysis) : Except String Unit :=
  if a.is_food = some false then Except.error "AI determined this is not food"
  else if a.food_name.isNone then Except.error "Missing required field: food_name"
  else if a.description.isNone then Except.error "Missing required field: description"
  else if a.portion_options.isNone then Except.error "Missing required field: portion_options"
  else if a.nutrition_per_100g.isNone then Except.error "Missing required field: nutrition_per_100g"
  else if pyStrip (a.food_name.getD "") = ""
      || food_name_deny_list.contains (pyLower (pyStrip (a.food_name.getD ""))) then
    Except.error "Invalid or empty food name"
  else if (validate_nutrition_dict a).calories.isNone then
    Except.error "Missing nutrition field: calories"
  else if (validate_nutrition_dict a).protein.isNone then
    Except.error "Missing nutrition field: protein"
  else if (validate_nutrition_dict a).fat.isNone then
    Except.error "Missing nutrition field: fat"
  else if (validate_nutrition_dict a).carbs.isNone then
    Except.error "Missing nutrition field: carbs"
  else if (validate_nutrition_dict a).calories.getD 0 + (validate_nutrition_dict a).protein.getD 0
      + (validate_nutrition_dict a).fat.getD 0 + (validate_nutrition_dict a).carbs.getD 0 = 0 then
    Except.error "All nutrition values are zero - likely not food"
  else if (a.portion_options.getD []).length = 0 then
    Except.error "portion_options must be a non-empty list"
  else Except.ok ()

/-! ## Input classification (`food_input_agent`) -/

/-- Match at one position for `\d+\s*(alt|...)` with an optional trailing
word boundary `\b` after the unit.  Greedy digit/space consumption is
complete here because no alternative starts with a digit or a space. -/
def matchNumUnitAt (alts : List (List Char)) (boundary : Bool) (cs : List Char) : Bool :=
  let ds := cs.takeWhile isDigitCh
  if ds.isEmpty then false
  else
    let rest := (cs.dropWhile isDigitCh).dropWhile isSpaceCh
    alts.any (fun a =>
      isPrefixL a rest &&
        (!boundary ||
          (match rest.drop a.length with
           | [] => true
           | c :: _ => !isWordCh c)))

/-- `re.search` of a `\d+\s*(alt|...)` pattern over a whole string. -/
def searchNumUnit (alts : List String) (boundary : Bool) (s : String) : Bool :=
  anyPosition (matchNumUnitAt (alts.map String.data) boundary) s.data

/-- Match at one position for `(container|...)\s+(liquid|...)`. -/
def matchContainerLiquidAt (containers liquids : List (List Char)) (cs : List Char) : Bool :=
  containers.any (fun c =>
    isPrefixL c cs &&
      (let r := cs.drop c.length
       !(r.takeWhile isSpaceCh).isEmpty &&
         liquids.any (fun l => isPrefixL l (r.dropWhile isSpaceCh))))

/-- The punctuation class of the symbols-only pattern in `_quick_food_detection`. -/
def punctuationChars : List Char :=
  "!@#$%^&*()_+-=[]".data ++
    [openBrace, closeBrace, ';', Char.ofNat 39, ':', Char.ofNat 34, Char.ofNat 92,
     '|', ',', '.', '<', '>', '/', '?']

/-- The `non_food_patterns` block of `_quick_food_detection`: a disjunction of
anchored prefix, full-equality and symbols-only patterns. -/
def non_food_pattern_match (tl : String) : Bool :=
  startsWithAny ["привет", "здравствуй", "добрый день", "доброе утро", "добрый вечер",
    "hi", "hello"] tl
  || startsWithAny ["как дела", "что делаешь", "как поживаешь", "как жизнь", "что нового"] tl
  || startsWithAny ["спасибо", "благодарю", "thanks", "пасиб"] tl
  || startsWithAny ["пока", "до свидания", "увидимся", "bye"] tl
  || equalsAny ["да", "нет", "не знаю", "может быть", "возможно"] tl
  || equalsAny ["хорошо", "плохо", "нормально", "отлично", "классно", "ужасно"] tl
  || startsWithAny ["помоги", "помощь", "что делать", "не понимаю"] tl
  || allCharsIn punctuationChars tl

/-- The `food_keywords` list of `_quick_food_detection` (verbatim, including
the duplicated entry). -/
def food_keywords : List String :=
  ["завтрак", "обед", "ужин", "перекус", "съел", "ел", "поел",
   "суп", "борщ", "каша", "салат", "мясо", "курица", "рыба", "хлеб",
   "молоко", "творог", "сыр", "яйцо", "картофель", "рис", "гречка",
   "макароны", "паста", "пицца", "бургер", "шаурма", "роллы",
   "банан", "яблок", "апельсин", "груш", "помидор", "огурец", "морковь",
   "чай", "кофе", "сок", "молоко", "кефир", "компот",
   "грамм", "килограмм", "литр", "миллилитр", "штук", "кусочек", "тарелка",
   "стакан", "чашка", "ложка", "порция"]

/-- The `number_patterns` block of `_quick_food_detection`. -/
def number_pattern_match (tl : String) : Bool :=
  searchNumUnit ["г"] true tl || searchNumUnit ["кг"] true tl
  || searchNumUnit ["мл"] true tl || searchNumUnit ["л"] true tl
  || searchNumUnit ["шт"] true tl
  || searchNumUnit ["банан", "яблок", "огурц", "помидор"] false tl

/-- `food_input_agent._quick_food_detection`. -/
def quick_food_detection (text : String) : Bool :=
  let text_lower := pyStrip (pyLower text)
  if non_food_pattern_match text_lower then false
  else if food_keywords.any (fun k => pyContains text_lower k) then true
  else if number_pattern_match text_lower then true
  else false

/-- The `exact_patterns` block of `_determine_portion_type`. -/
def exact_pattern_match (tl : String) : Bool :=
  searchNumUnit ["г"] true tl || searchNumUnit ["кг"] true tl
  || searchNumUnit ["мл"] true tl || searchNumUnit ["л"] true tl
  || searchNumUnit ["банан", "яблок", "огурц", "помидор", "кусочек", "штук"] false tl
  || anyPosition
      (matchContainerLiquidAt
        (["стакан", "чашка", "тарелка", "кружка", "бутылка"].map String.data)
        (["молока", "воды", "сока", "чая", "кофе", "супа", "борща"].map String.data))
      tl.data

/-- The `vague_patterns` block of `_determine_portion_type`: exact phrases and
words of one to three Cyrillic lowercase letters. -/
def vague_pattern_match (s : String) : Bool :=
  equalsAny ["еда", "блюдо", "что-то", "немного", "чуть-чуть"] s
  || (1 ≤ s.data.length && s.data.length ≤ 3 &&
      s.data.all (fun c => (0x430 ≤ c.toNat && c.toNat ≤ 0x44F) || c.toNat = 0x451))

/-- `food_input_agent._determine_portion_type`. -/
def determine_portion_type (text : String) : String :=
  let text_lower := pyLower text
  if exact_pattern_match text_lower then "exact"
  else if ["маленьк", "средн", "больш", "огромн", "крошечн"].any
      (fun i => pyContains text_lower i) then "approximate"
  else if vague_pattern_match (pyStrip text_lower) then "need_clarification"
  else "approximate"

/-- One `re.findall` match attempt for `(\d+(?:\.\d+)?)\s*(alt|...)`:
returns the number text, the matched (first fitting) alternative and the
total number of characters consumed. -/
def tryNumUnitMatch (alts : List (List Char)) (cs : List Char) :
    Option (List Char × List Char × ℕ) :=
  let ds := cs.takeWhile isDigitCh
  if ds.isEmpty then none
  else
    let frac :=
      match cs.drop ds.length with
      | '.' :: rest2 =>
        let fs := rest2.takeWhile isDigitCh
        if fs.isEmpty then [] else '.' :: fs
      | _ => []
    let numChars := ds ++ frac
    let afterNum := cs.drop numChars.length
    let spaces := afterNum.takeWhile isSpaceCh
    let afterSp := afterNum.drop spaces.length
    match alts.find? (fun a => isPrefixL a afterSp) with
    | some a => some (numChars, a, numChars.length + spaces.length + a.length)
    | none => none

/-- `re.findall` for `(\d+(?:\.\d+)?)\s*(alt|...)`: left-to-right scan over
non-overlapping matches.  Fuel is the string length; each step consumes at
least one character. -/
def findAllNumUnit (alts : List (List Char)) : ℕ → List Char → List (List Char × List Char)
  | 0, _ => []
  | _ + 1, [] => []
  | fuel + 1, c :: rest =>
    match tryNumUnitMatch alts (c :: rest) with
    | some (num, a, consumed) => (num, a) :: findAllNumUnit alts fuel ((c :: rest).drop consumed)
    | none => findAllNumUnit alts fuel rest

/-- `re.findall` for a plain alternative group `(alt|...)`. -/
def findAllAlt (alts : List (List Char)) : ℕ → List Char → List (List Char)
  | 0, _ => []
  | _ + 1, [] => []
  | fuel + 1, c :: rest =>
    match alts.find? (fun a => isPrefixL a (c :: rest)) with
    | some a => a :: findAllAlt alts fuel ((c :: rest).drop a.length)
    | none => findAllAlt alts fuel rest

/-- `re.findall` for `(stem|...)\w*`: the captured group is the stem; the
trailing word characters are consumed but not captured. -/
def findAllStemW (stems : List (List Char)) : ℕ → List Char → List (List Char)
  | 0, _ => []
  | _ + 1, [] => []
  | fuel + 1, c :: rest =>
    match stems.find? (fun a => isPrefixL a (c :: rest)) with
    | some a =>
      let afterStem := (c :: rest).drop a.length
      a :: findAllStemW stems fuel (afterStem.drop (afterStem.takeWhile isWordCh).length)
    | none => findAllStemW stems fuel rest

/-- Python `", ".join(parts)`. -/
def joinComma : List String → String
  | [] => ""
  | [x] => x
  | x :: y :: rest => x ++ ", " ++ joinComma (y :: rest)

/-- `food_input_agent._extract_portion_info`. -/
def extract_portion_info (text : String) : Option String :=
  let tl := pyLower text
  let cs := tl.data
  let fuel := cs.length + 1
  let weightMs := (findAllNumUnit (["г", "грам", "гр", "кг", "килограмм"].map String.data)
    fuel cs).map (fun m => String.mk (m.1 ++ m.2))
  let volumeMs := (findAllNumUnit (["мл", "миллилитр", "л", "литр"].map String.data)
    fuel cs).map (fun m => String.mk (m.1 ++ m.2))
  let piecesMs := (findAllNumUnit
    (["шт", "штук", "штуки", "банан", "яблок", "огурц", "помидор", "кусочек", "кусочка"].map
      String.data) fuel cs).map (fun m => String.mk (m.1 ++ m.2))
  let containerMs := (findAllAlt
    (["стакан", "чашка", "тарелка", "кружка", "бутылка", "миска"].map String.data)
    fuel cs).map String.mk
  let sizeMs := (findAllStemW (["маленьк", "средн", "больш", "огромн", "крошечн"].map String.data)
    fuel cs).map String.mk
  let extracted := weightMs ++ volumeMs ++ piecesMs ++ containerMs ++ sizeMs
  if extracted.isEmpty then none else some (joinComma extracted)

/-- The JSON-shaped reply the classification oracle is asked for. -/
structure InputAnalysisJson where
  is_food_related : Option Bool
  analysis_type : Option String
  food_description : Option String
  portion_info : Option String
  confidence : Option ℚ
deriving DecidableEq

/-- The classification record produced by the input-analysis node. -/
structure InputAnalysis where
  is_food_related : Bool
  analysis_type : String
  food_description : String
  portion_info : Option String
  confidence : ℚ
deriving DecidableEq

/-- The keyword fallback in the `except` clause of `_parse_input_analysis`. -/
def parse_input_fallback (content : String) : InputAnalysis :=
  let text := pyLower content
  let is_food := ["еда", "блюдо", "съел", "поел"].any (fun w => pyContains text w)
  { is_food_related := is_food,
    analysis_type := if is_food then "approximate" else "not_food",
    food_description := pyTake 100 content,
    portion_info := none,
    confidence := 0.3 }

/-- `food_input_agent._parse_input_analysis`: JSON slice extraction plus
decoding, falling back to the keyword heuristic on failure. -/
def parse_input_analysis (content : String)
    (decode : String → Option InputAnalysisJson) : InputAnalysis :=
  match extract_json_slice content with
  | none => parse_input_fallback content
  | some s =>
    match decode s with
    | none => parse_input_fallback content
    | some r =>
      { is_food_related := r.is_food_related.getD false,
        analysis_type := r.analysis_type.getD "not_food",
        food_description := r.food_description.getD "",
        portion_info := r.portion_info,
        confidence := r.confidence.getD 0 }

/-- `food_input_agent.analyze_input_node`.  The second component records
whether the oracle (the external LLM) was invoked: the quick lexical pass
short-circuits the oracle only when it detects food. -/
def analyze_input_node (user_input : String) (oracleContent : String)
    (decode : String → Option InputAnalysisJson) : InputAnalysis × Bool :=
  let is_food_likely := quick_food_detection user_input
  if !is_food_likely then
    (parse_input_analysis oracleContent decode, true)
  else
    ({ is_food_related := true,
       analysis_type := determine_portion_type user_input,
       food_description := user_input,
       portion_info := extract_portion_info user_input,
       confidence := 0.9 }, false)

/-! ## Portion resolution (`nutrition_analyzer.calculate_nutrition_for_portion`) -/

/-- `nutrition_analyzer.calculate_nutrition_for_portion`, operating on the
raw dictionary: a missing nutrient key is a raised `KeyError`. -/
def calculate_nutrition_for_portion (nutrition_per_100g : RawNutrition)
    (portion_weight : ℚ) : Except String ResolvedNutrition :=
  let multiplier := portion_weight / 100
  match nutrition_per_100g.calories, nutrition_per_100g.protein,
      nutrition_per_100g.fat, nutrition_per_100g.carbs with
  | some c, some p, some f, some cb =>
    Except.ok
      { total_calories := pyRound (c * multiplier) 1,
        total_protein := pyRound (p * multiplier) 1,
        total_fat := pyRound (f * multiplier) 1,
        total_carbs := pyRound (cb * multiplier) 1,
        portion_weight := portion_weight }
  | _, _, _, _ => Except.error "KeyError: nutrition value"

/-- The spec-side resolver, written from the spec's words: each total macro
is `round(per_100g_x * weight/100, 1)`; used to compare against the code. -/
def resolved_nutrition_spec (c p f cb w : ℚ) : ResolvedNutrition :=
  { total_calories := pyRound (c * w / 100) 1,
    total_protein := pyRound (p * w / 100) 1,
    total_fat := pyRound (f * w / 100) 1,
    total_carbs := pyRound (cb * w / 100) 1,
    portion_weight := w }

/-- `nutrition_analyzer.create_portion_options_with_nutrition`: per-option
nutrition computation with direct key accesses, any of which may raise. -/
def create_portion_options_with_nutrition (a : RawAnalysis) :
    Except String (List (PortionOption × ResolvedNutrition)) :=
  match a.nutrition_per_100g with
  | none => Except.error "KeyError: nutrition_per_100g"
  | some nut =>
    match a.portion_options with
    | none => Except.error "KeyError: portion_options"
    | some opts =>
      opts.mapM (fun o =>
        match o with
        | RawPortion.dict (some sz) (some w) (some d) =>
          match calculate_nutrition_for_portion nut w with
          | Except.ok n => Except.ok ({ size := sz, weight := w, description := d }, n)
          | Except.error e => Except.error e
        | _ => Except.error "KeyError: portion entry")

/-! ## The food-input agent pipeline (`food_input_agent.process_food_input`) -/

/-- The outcome of `process_food_input`, a tagged view of the returned dict. -/
inductive AgentResult where
  | notFood (message : String)
  | needsClarification (message : String)
  | analysis (a : RawAnalysis)
deriving DecidableEq

/-- `_get_clarification_message`. -/
def clarification_message (original_input : String) : String :=
  "\n🤔 Мне нужно больше деталей!\n\nТы написал: \"" ++ original_input ++
  "\"\n\nПопробуй описать более конкретно:\n• Что именно ты ел?\n• Какая была порция?\n\n**Примеры хорошего описания:**\n• \"2 банана\"\n• \"тарелка борща\"\n• \"кусочек хлеба\"\n• \"стакан молока\"\n• \"салат цезарь большая порция\"\n"

/-- The message of the `except` clause of `process_food_input`. -/
def not_food_fail_message (food_description : String) : String :=
  "Не удалось проанализировать " ++ sqMark ++ food_description ++ sqMark ++
  " как еду. Попробуй описать конкретное блюдо."

/-- The message of the `not_food` branch of `process_food_input`. -/
def not_food_default_message : String :=
  "Я не смог определить блюдо в твоем сообщении. Попробуй описать что ты ел более конкретно."

/-- `food_input_agent.process_food_input`.  On the `exact`/`approximate`
branches the oracle reply is parsed and validated; a `ValueError` raised by
the validator is caught by the surrounding `except`, which converts the
failure into a not-food response. -/
def process_food_input (analysis_type food_description original_input : String)
    (oracleContent : String) (decode : String → Option RawAnalysis) : AgentResult :=
  if analysis_type = "exact" || analysis_type = "approximate" then
    let food_analysis := analyze_food_text_with_langgraph oracleContent decode
    match validate_food_analysis food_analysis with
    | Except.ok _ => AgentResult.analysis food_analysis
    | Except.error _ => AgentResult.notFood (not_food_fail_message food_description)
  else if analysis_type = "need_clarification" then
    AgentResult.needsClarification (clarification_message original_input)
  else
    AgentResult.notFood not_food_default_message

/-! ## The Redis cache layer (`bot/services/redis_service.py`)

The underlying client calls are modelled as outcome parameters: `PyOutcome`
is either a returned value or a raised exception. -/

/-- Outcome of one Python call: a value, or a raised exception. -/
inductive PyOutcome (α : Type) where
  | ok (a : α)
  | exn (e : String)
deriving DecidableEq

/-- The `try` block of `cache_food_analysis` (`json.dumps` then `setex`). -/
def cache_try_block (dumps : PyOutcome String) (setex : PyOutcome Unit) : PyOutcome Bool :=
  match dumps with
  | PyOutcome.exn e => PyOutcome.exn e
  | PyOutcome.ok _ =>
    match setex with
    | PyOutcome.exn e => PyOutcome.exn e
    | PyOutcome.ok _ => PyOutcome.ok true

/-- `redis_service.cache_food_analysis`: `False` when the client is absent,
and the `except` clause converts any raised exception into `False`. -/
def cache_food_analysis (redis_client : Option Unit) (dumps : PyOutcome String)
    (setex : PyOutcome Unit) : Bool :=
  match redis_client with
  | none => false
  | some _ =>
    match cache_try_block dumps setex with
    | PyOutcome.ok b => b
    | PyOutcome.exn _ => false

/-- The `try` block of `get_cached_food_analysis` (`get` then `json.loads`). -/
def get_cached_try_block {α : Type} (getOutcome : PyOutcome (Option String))
    (loads : String → PyOutcome α) : PyOutcome (Option α) :=
  match getOutcome with
  | PyOutcome.exn e => PyOutcome.exn e
  | PyOutcome.ok none => PyOutcome.ok none
  | PyOutcome.ok (some s) =>
    match loads s with
    | PyOutcome.exn e => PyOutcome.exn e
    | PyOutcome.ok a => PyOutcome.ok (some a)

/-- `redis_service.get_cached_food_analysis`: `None` when the client is
absent, and the `except` clause converts any raised exception into `None`. -/
def get_cached_food_analysis {α : Type} (redis_client : Option Unit)
    (getOutcome : PyOutcome (Option String)) (loads : String → PyOutcome α) : Option α :=
  match redis_client with
  | none => none
  | some _ =>
    match get_cached_try_block getOutcome loads with
    | PyOutcome.ok v => v
    | PyOutcome.exn _ => none

/-- `nutrition_analyzer.analyze_food_from_text`: a cache hit is returned as
is; on a miss the oracle is invoked and the result normalized.  The second
component records whether the oracle was called. -/
def analyze_food_from_text (cached : Option FoodAnalysis) (oracleContent : String)
    (decode : String → Option RawAnalysis) : FoodAnalysis × Bool :=
  match cached with
  | some c => (c, false)
  | none => (process_analysis_result (analyze_food_text_with_langgraph oracleContent decode), true)

/-! ## The conversation state machine (`bot/handlers/universal_food_input.py`)

Aiogram FSM state is `Option FoodState` (`none` after `state.clear()`), and
the FSM data dictionary is `SessionData`.  The router decorators' state
filters appear as guards at the top of each handler model. -/

/-- The three states of `UniversalFoodStates`. -/
inductive FoodState where
  | selecting_portion
  | confirming_nutrition
  | awaiting_clarification
deriving DecidableEq

/-- The FSM data dictionary entries the handlers use. -/
structure SessionData where
  analysis : Option RawAnalysis
  selected_portion : Option RawPortion
  nutrition : Option ResolvedNutrition
deriving DecidableEq

/-- A per-user conversation session: FSM state plus FSM data. -/
structure Session where
  stage : Option FoodState
  data : SessionData
deriving DecidableEq

/-- The session after `state.clear()`: no state, empty data. -/
def clearedSession : Session :=
  { stage := none, data := { analysis := none, selected_portion := none, nutrition := none } }

/-- Result of one callback handler: a reply (with the session as left), or a
raised exception escaping the handler (with the session as mutated so far). -/
inductive HandlerOutcome where
  | replied (s : Session) (message : Option String)
  | raised (s : Session) (e : String)
deriving DecidableEq

/-- The rejection message for an out-of-range portion index. -/
def invalid_selection_msg : String := "❌ Неверный выбор порции"

/-- `handle_portion_selection`.  The guard models the router's
`UniversalFoodStates.selecting_portion` filter; out-of-range indices are
answered with the invalid-selection message and no session mutation. -/
def handle_portion_selection (s : Session) (i : ℕ) : HandlerOutcome :=
  if s.stage = some FoodState.selecting_portion then
    let analysis := s.data.analysis.getD emptyRawAnalysis
    let opts := analysis.portion_options.getD []
    if opts.length ≤ i then HandlerOutcome.replied s (some invalid_selection_msg)
    else
      match opts.get? i with
      | none => HandlerOutcome.replied s (some invalid_selection_msg)
      | some RawPortion.notDict => HandlerOutcome.raised s "TypeError: portion is not a dict"
      | some (RawPortion.dict psz pw pd) =>
        match analysis.nutrition_per_100g with
        | none => HandlerOutcome.raised s "KeyError: nutrition_per_100g"
        | some nut =>
          match pw with
          | none => HandlerOutcome.raised s "KeyError: weight"
          | some w =>
            match calculate_nutrition_for_portion nut w with
            | Except.error e => HandlerOutcome.raised s e
            | Except.ok n =>
              let s1 : Session :=
                { s with data := { s.data with
                    selected_portion := some (RawPortion.dict psz (some w) pd),
                    nutrition := some n } }
              match analysis.food_name, pd with
              | some _, some _ =>
                HandlerOutcome.replied
                  { s1 with stage := some FoodState.confirming_nutrition } none
              | _, _ => HandlerOutcome.raised s1 "KeyError: confirmation rendering"
  else HandlerOutcome.replied s none

/-- The `len(portion_options) == 1 and portion_options[0].get("size") == "exact"`
condition of `show_portion_selection`; `.get` on a non-dict entry raises. -/
def autoselect_condition (opts : List RawPortion) : PyOutcome Bool :=
  if opts.length = 1 then
    match opts.head? with
    | some (RawPortion.dict sz _ _) => PyOutcome.ok (sz = some "exact")
    | some RawPortion.notDict => PyOutcome.exn "AttributeError: get"
    | none => PyOutcome.ok false
  else PyOutcome.ok false

/-- `show_portion_selection`: clears the session when no portion options
remain, auto-selects a single `exact` option, and otherwise presents the
menu and moves to `selecting_portion`.  The second component is the raised
exception, if any; the first is the session as mutated so far. -/
def show_portion_selection_step (s : Session) (analysis : RawAnalysis) :
    Session × Option String :=
  let opts := analysis.portion_options.getD []
  if opts.isEmpty then (clearedSession, none)
  else
    match autoselect_condition opts with
    | PyOutcome.exn e => (s, some e)
    | PyOutcome.ok true =>
      match opts.head? with
      | some (RawPortion.dict psz (some w) pd) =>
        match analysis.nutrition_per_100g with
        | none => (s, some "KeyError: nutrition_per_100g")
        | some nut =>
          match calculate_nutrition_for_portion nut w with
          | Except.error e => (s, some e)
          | Except.ok n =>
            let s1 : Session :=
              { s with data := { s.data with
                  selected_portion := some (RawPortion.dict psz (some w) pd),
                  nutrition := some n } }
            match analysis.food_name, pd with
            | some _, some _ => ({ s1 with stage := some FoodState.confirming_nutrition }, none)
            | _, _ => (s1, some "KeyError: confirmation rendering")
      | some (RawPortion.dict _ none _) => (s, some "KeyError: weight")
      | _ => (s, some "unreachable")
    | PyOutcome.ok false =>
      match analysis.food_name with
      | none => (s, some "KeyError: food_name")
      | some _ =>
        match create_portion_options_with_nutrition analysis with
        | Except.error e => (s, some e)
        | Except.ok _ =>
          match analysis.portion_options with
          | none => (s, some "KeyError: portion_options")
          | some _ => ({ s with stage := some FoodState.selecting_portion }, none)

/-- The tail of `handle_universal_text_input` after `process_food_input`:
not-food replies leave the session untouched, clarification moves to
`awaiting_clarification`, and an analysis is stored and presented.  The
handler's outer `except` swallows exceptions, keeping mutations made so far. -/
def handle_universal_text_input_step (s : Session) (res : AgentResult) : Session :=
  match res with
  | AgentResult.notFood _ => s
  | AgentResult.needsClarification _ => { s with stage := some FoodState.awaiting_clarification }
  | AgentResult.analysis fa =>
    let s1 : Session := { s with data := { s.data with analysis := some fa } }
    (show_portion_selection_step s1 fa).1

/-- A persisted food-diary record, the arguments of `create_food_entry`. -/
structure FoodRecord where
  food_name : String
  portion_size : String
  portion_weight : ℚ
  calories_per_100g : ℚ
  protein_per_100g : ℚ
  fat_per_100g : ℚ
  carbs_per_100g : ℚ
  total_calories : ℚ
  total_protein : ℚ
  total_fat : ℚ
  total_carbs : ℚ
deriving DecidableEq

/-- The `try` block of `confirm_nutrition_entry`: reads the session data
(direct key accesses may raise `KeyError`) and writes the record (`dbOk`
models the database call outcome). -/
def confirm_try_block (d : SessionData) (dbOk : Bool) : PyOutcome FoodRecord :=
  let analysis := d.analysis.getD emptyRawAnalysis
  match analysis.food_name with
  | none => PyOutcome.exn "KeyError: food_name"
  | some fn =>
    match d.selected_portion.getD (RawPortion.dict none none none) with
    | RawPortion.notDict => PyOutcome.exn "TypeError: portion is not a dict"
    | RawPortion.dict psz pw _ =>
      match psz, pw with
      | some psz', some pw' =>
        match analysis.nutrition_per_100g with
        | none => PyOutcome.exn "KeyError: nutrition_per_100g"
        | some nut =>
          match nut.calories, nut.protein, nut.fat, nut.carbs with
          | some c, some p, some f, some cb =>
            match d.nutrition with
            | none => PyOutcome.exn "KeyError: total nutrition"
            | some n =>
              if dbOk then
                PyOutcome.ok
                  { food_name := fn, portion_size := psz', portion_weight := pw',
                    calories_per_100g := c, protein_per_100g := p,
                    fat_per_100g := f, carbs_per_100g := cb,
                    total_calories := n.total_calories, total_protein := n.total_protein,
                    total_fat := n.total_fat, total_carbs := n.total_carbs }
              else PyOutcome.exn "database error"
          | _, _, _, _ => PyOutcome.exn "KeyError: nutrition field"
      | _, _ => PyOutcome.exn "KeyError: portion field"

/-- `confirm_nutrition_entry`.  The guard models the router's
`UniversalFoodStates.confirming_nutrition` filter: a confirm callback on a
session in any other state (including an already-cleared one) does not fire
the handler at all.  Both the success branch and the `except` branch end
with `state.clear()`. -/
def confirm_nutrition_entry (s : Session) (records : List FoodRecord)
    (dbOk : Bool) : Session × List FoodRecord :=
  if s.stage = some FoodState.confirming_nutrition then
    match confirm_try_block s.data dbOk with
    | PyOutcome.ok r => (clearedSession, records ++ [r])
    | PyOutcome.exn _ => (clearedSession, records)
  else (s, records)

/-! ## Concrete payloads and sessions used in the theorems below -/

/-- A profile with every field present, gender recognized, but age zero. -/
def zeroAgeUser : TelegramUser :=
  { age := some 0, weight := some 70, height := some 175,
    gender := some "male", activity_level := none, goal := none }

/-- Bad payload: food, but with an empty portion list. -/
def emptyPortionsRaw : RawAnalysis :=
  { is_food := some true, food_name := some "еда", description := some "описание",
    portion_options := some [],
    nutrition_per_100g := some
      { calories := some 100, protein := some 5, fat := some 5, carbs := some 10 } }

/-- Out-of-range oracle payload that the agent path accepts unchanged. -/
def oversizedRaw : RawAnalysis :=
  { is_food := some true, food_name := some "торт с кремом",
    description := some "большой торт",
    portion_options := some [mkP "exact" 5000 "весь торт"],
    nutrition_per_100g := some
      { calories := some 2000, protein := some 150, fat := some 120, carbs := some 110 } }

/-- A two-character string holding one brace pair. -/
def bracesStr : String := String.mk [openBrace, closeBrace]

/-- A validated raw analysis used as concrete witness data. -/
def wRaw : RawAnalysis :=
  { is_food := some true, food_name := some "борщ", description := some "суп со свеклой",
    portion_options := some [mkP "exact" 200 "тарелка"],
    nutrition_per_100g := some
      { calories := some 50, protein := some 3, fat := some 2, carbs := some 5 } }

/-- A concrete resolved-nutrition record used as witness data. -/
def wNut : ResolvedNutrition :=
  { total_calories := 100, total_protein := 6, total_fat := 4, total_carbs := 10,
    portion_weight := 200 }

/-- A session awaiting confirmation, used as concrete witness data. -/
def wConfirmSession : Session :=
  { stage := some FoodState.confirming_nutrition,
    data := { analysis := some wRaw, selected_portion := some (mkP "exact" 200 "тарелка"),
              nutrition := some wNut } }

/-- A session selecting a portion, used as concrete witness data. -/
def wSelectSession : Session :=
  { stage := some FoodState.selecting_portion,
    data := { analysis := some wRaw, selected_portion := none, nutrition := none } }

/-! ## Sanity evaluations and helper lemmas: the calculator scenario values -/

example : pyLower "ПрИвЕт" = "привет" := by decide
example : pyStrip "  привет " = "привет" := by decide
example : pyContains "тарелка борща" "борщ" = true := by decide
example : digitRuns "ab12c345".data = [['1','2'], ['3','4','5']] := by decide
example : natOfDigits ['0','0','7'] = 7 := by decide
example : firstIdxOf 'x' "abxcx".data = some 2 := by decide
example : lastIdxOf 'x' "abxcx".data = some 4 := by decide
example : lastIdxOf 'y' "abxcx".data = none := by decide

example : quick_food_detection "привет" = false := by decide
example : quick_food_detection "борщ" = true := by decide
example : quick_food_detection "2 банана" = true := by decide
example : determine_portion_type "2 банана" = "exact" := by decide
example : determine_portion_type "банан" = "approximate" := by decide
example : (analyze_input_node "привет" "мусор" (fun _ => none)).2 = true := by decide
example : (analyze_input_node "борщ" "мусор" (fun _ => none)).2 = false := by decide



/-- Evaluation of the scenario BMR. -/
lemma scenario_bmr_eq : calculate_bmr scenarioUser = some 1649 := by
  have h1 : "male" ≠ "" := by decide
  norm_num [calculate_bmr, scenarioUser, py_truthy_q, py_truthy_int, py_truthy_str,
    pyRound, pyRoundInt, h1]

/-- Evaluation of the scenario TDEE. -/
lemma scenario_tdee_eq : calculate_tdee scenarioUser = some 1979 := by
  have h1 : "sedentary" ≠ "" := by decide
  simp only [calculate_tdee, scenario_bmr_eq]
  norm_num [scenarioUser, py_truthy_q, py_truthy_str, activity_multiplier_lookup,
    pyRound, pyRoundInt, h1]

/-- Evaluation of the scenario target calories. -/
lemma scenario_target_eq : calculate_target_calories scenarioUser = some 1979 := by
  have h1 : "maintain_weight" ≠ "weight_loss" := by decide
  have h2 : "maintain_weight" ≠ "weight_gain" := by decide
  have h3 : "male" ≠ "female" := by decide
  have h4 : "maintain_weight" ≠ "" := by decide
  simp only [calculate_target_calories, scenario_tdee_eq]
  norm_num [scenarioUser, py_truthy_q, py_truthy_str, goal_adjustment_lookup,
    pyRound, pyRoundInt, h1, h2, h3, h4]

/-- Claim C6, counterexample: on the scenario profile the calculator does not
return the spec's values 1673.75 / 2008.5 / 2008.5. -/
theorem claim_C6_counterexample :
    calculate_bmr scenarioUser ≠ some (1673.75 : ℚ) ∧
    calculate_tdee scenarioUser ≠ some (2008.5 : ℚ) ∧
    calculate_target_calories scenarioUser ≠ some (2008.5 : ℚ) := by
  refine ⟨?_, ?_, ?_⟩
  · rw [scenario_bmr_eq]
    intro h
    rw [Option.some_inj] at h
    norm_num at h
  · rw [scenario_tdee_eq]
    intro h
    rw [Option.some_inj] at h
    norm_num at h
  · rw [scenario_target_eq]
    intro h
    rw [Option.some_inj] at h
    norm_num at h

/-- Claim C6 (amended): on the profile (age 30, weight 70, height 175, male,
sedentary, maintain weight) the calculator returns bmr = 1649, tdee = 1979
and target calories = 1979, the whole-number rounds of 1648.75 and 1978.8. -/
theorem claim_C6_thm :
    calculate_bmr scenarioUser = some 1649 ∧
    calculate_tdee scenarioUser = some 1979 ∧
    calculate_target_calories scenarioUser = some 1979 :=
  ⟨scenario_bmr_eq, scenario_tdee_eq, scenario_target_eq⟩

/-- Claim C7, counterexample: a profile in which age, weight, height and
gender are all present and gender is "male", yet `calculate_bmr` returns
`None`, because the truthiness check treats the present value 0 as missing. -/
theorem claim_C7_counterexample :
    zeroAgeUser.age = some 0 ∧ zeroAgeUser.weight = some 70 ∧
    zeroAgeUser.height = some 175 ∧ zeroAgeUser.gender = some "male" ∧
    calculate_bmr zeroAgeUser = none := by
  refine ⟨rfl, rfl, rfl, rfl, ?_⟩
  decide

/-- Claim C7 (amended): `calculate_bmr` returns `None` iff one of weight,
height, age, gender is missing or falsy (zero value, empty string), or the
gender is neither "male" nor "female". -/
theorem claim_C7_thm (u : TelegramUser) :
    calculate_bmr u = none ↔
      (py_truthy_q u.weight = false ∨ py_truthy_q u.height = false
        ∨ py_truthy_int u.age = false ∨ py_truthy_str u.gender = false
        ∨ (u.gender ≠ some "male" ∧ u.gender ≠ some "female")) := by
  unfold calculate_bmr
  cases hw : py_truthy_q u.weight <;> cases hh : py_truthy_q u.height <;>
    cases ha : py_truthy_int u.age <;> cases hg : py_truthy_str u.gender
  all_goals simp [hw, hh, ha, hg]
  all_goals split_ifs with h1 h2
  all_goals simp_all

/-- Claim C8: `calculate_nutrition_for_portion` computes each total macro as
`round(per_100g_rate * weight/100, 1)` exactly (the spec-side formula), and
it is deterministic: two calls on the same inputs give the identical
`ResolvedNutrition` record. -/
theorem claim_C8_thm (c p f cb w : ℚ) :
    calculate_nutrition_for_portion
        { calories := some c, protein := some p, fat := some f, carbs := some cb } w
      = Except.ok (resolved_nutrition_spec c p f cb w) ∧
    calculate_nutrition_for_portion
        { calories := some c, protein := some p, fat := some f, carbs := some cb } w
      = calculate_nutrition_for_portion
        { calories := some c, protein := some p, fat := some f, carbs := some cb } w := by
  refine ⟨?_, rfl⟩
  simp [calculate_nutrition_for_portion, resolved_nutrition_spec, mul_div_assoc]

/-- Claim C10: the cache layer never lets a failure escape: with no Redis
client `get` returns `None` and `put` returns `False`; a raised exception in
the underlying call is caught and converted to `None`/`False`; and when the
cache yields nothing, `analyze_food_from_text` proceeds by calling the
oracle. -/
theorem claim_C10_thm (client : Option Unit) (g : PyOutcome (Option String))
    (loads : String → PyOutcome FoodAnalysis) (dumps : PyOutcome String)
    (setex : PyOutcome Unit) (content : String) (decode : String → Option RawAnalysis)
    (e : String) :
    get_cached_food_analysis none g loads = none ∧
    cache_food_analysis none dumps setex = false ∧
    get_cached_food_analysis client (PyOutcome.exn e) loads = none ∧
    cache_food_analysis client dumps (PyOutcome.exn e) = false ∧
    cache_food_analysis client (PyOutcome.exn e) setex = false ∧
    (analyze_food_from_text (get_cached_food_analysis none g loads) content decode).2 = true := by
  refine ⟨rfl, rfl, ?_, ?_, ?_, rfl⟩
  · cases client <;> rfl
  · cases client with
    | none => rfl
    | some _ => cases dumps <;> rfl
  · cases client <;> rfl

/-- Claim C4: confirmation is idempotent under duplicate confirm callbacks.
A first confirm on a session in the confirming state clears it; feeding the
resulting session and record list to a second confirm event changes nothing
(the router's state filter no longer matches), so no second record is
persisted and no error is raised. -/
theorem claim_C4_thm (s : Session) (records : List FoodRecord) (d1 d2 : Bool) :
    confirm_nutrition_entry (confirm_nutrition_entry s records d1).1
        (confirm_nutrition_entry s records d1).2 d2
      = confirm_nutrition_entry s records d1 ∧
    (s.stage = some FoodState.confirming_nutrition →
      (confirm_nutrition_entry s records d1).1 = clearedSession) := by
  by_cases h : s.stage = some FoodState.confirming_nutrition
  · unfold confirm_nutrition_entry
    rw [if_pos h]
    cases confirm_try_block s.data d1 <;>
      exact ⟨by rw [if_neg (by simp [clearedSession])], fun _ => rfl⟩
  · unfold confirm_nutrition_entry
    rw [if_neg h, if_neg h]
    exact ⟨rfl, fun hc => absurd hc h⟩

/-- Claim C4, witness: a concrete double confirm on a full session. -/
theorem claim_C4_witness :
    (confirm_nutrition_entry wConfirmSession [] true).1 = clearedSession ∧
    confirm_nutrition_entry (confirm_nutrition_entry wConfirmSession [] true).1
        (confirm_nutrition_entry wConfirmSession [] true).2 false
      = confirm_nutrition_entry wConfirmSession [] true :=
  ⟨(claim_C4_thm wConfirmSession [] true false).2 rfl,
   (claim_C4_thm wConfirmSession [] true false).1⟩

/-- Claim C9: a portion-selection event whose index is at or beyond the end
of the session's portion-options list is answered with the invalid-selection
message and the session — stage, stored analysis, previously selected
portion — is returned exactly unchanged. -/
theorem claim_C9_thm (s : Session) (i : ℕ)
    (hstage : s.stage = some FoodState.selecting_portion)
    (hrange : ((s.data.analysis.getD emptyRawAnalysis).portion_options.getD []).length ≤ i) :
    handle_portion_selection s i = HandlerOutcome.replied s (some invalid_selection_msg) := by
  unfold handle_portion_selection
  rw [if_pos hstage]
  rw [if_pos hrange]

/-- Claim C9, witness: index 5 against a one-option session. -/
theorem claim_C9_witness :
    handle_portion_selection wSelectSession 5
      = HandlerOutcome.replied wSelectSession (some invalid_selection_msg) :=
  claim_C9_thm wSelectSession 5 rfl (by decide)

/-- Claim C3, counterexample: on the input "привет" the quick lexical pass
does classify the text as non-food, but the analysis node then invokes the
oracle (second component `true`) for deeper analysis — the claim that the
oracle is never called for such inputs is false.  With a non-JSON oracle
reply the final classification is still `not_food`, via the fallback. -/
theorem claim_C3_counterexample :
    quick_food_detection "привет" = false ∧
    (analyze_input_node "привет" "мусор" (fun _ => none)).2 = true ∧
    (analyze_input_node "привет" "мусор" (fun _ => none)).1.analysis_type = "not_food" := by
  refine ⟨by decide, by decide, by decide⟩

/-- Claim C3 (amended): the analysis node consults the oracle exactly when
the quick lexical pass does not detect food; "привет" is rejected by the
lexical pass (so the oracle is consulted for it); and for inputs the
lexical pass accepts, the node classifies food-related without any oracle
call. -/
theorem claim_C3_thm (input content : String) (decode : String → Option InputAnalysisJson) :
    ((analyze_input_node input content decode).2 = !(quick_food_detection input)) ∧
    quick_food_detection "привет" = false ∧
    (quick_food_detection input = true →
      (analyze_input_node input content decode).1.is_food_related = true ∧
      (analyze_input_node input content decode).2 = false) := by
  refine ⟨?_, by decide, ?_⟩
  · unfold analyze_input_node
    cases h : quick_food_detection input <;> simp [h]
  · intro h
    unfold analyze_input_node
    simp [h]

/-- Claim C3, witness: a lexical-pass food input is classified food-related
with no oracle call. -/
theorem claim_C3_witness :
    (analyze_input_node "борщ" "x" (fun _ => none)).1.is_food_related = true ∧
    (analyze_input_node "борщ" "x" (fun _ => none)).2 = false :=
  (claim_C3_thm "борщ" "x" (fun _ => none)).2.2 (by decide)

/-- Claim C2, counterexample: on a non-JSON oracle reply the parse failure
is not surfaced as an error: the `try` body does raise, but the `except`
clause catches it and `_parse_food_analysis_response` returns the sentinel
not-food structure; the agent pipeline then reports not-food instead of
raising (no `MalformedOutputError` exists in the code). -/
theorem claim_C2_counterexample :
    parse_food_analysis_body "просто текст" (fun _ => none)
      = Except.error "No JSON found in response" ∧
    parse_food_analysis_response "просто текст" (fun _ => none) = parse_failure_result ∧
    parse_failure_result.is_food = some false ∧
    process_food_input "exact" "шум" "шум" "просто текст" (fun _ => none)
      = AgentResult.notFood (not_food_fail_message "шум") := by
  refine ⟨rfl, by decide, rfl, by decide⟩

/-- Claim C2 (amended): for every oracle reply with no extractable JSON
object, the parser returns the sentinel not-food analysis instead of
raising; the agent pipeline converts it into a not-food response; and the
text handler leaves the session exactly in its prior stage. -/
theorem claim_C2_thm (content : String) (decode : String → Option RawAnalysis)
    (s : Session) (desc orig atype : String)
    (hnoj : extract_json_slice content = none)
    (hat : atype = "exact" ∨ atype = "approximate") :
    parse_food_analysis_response content decode = parse_failure_result ∧
    process_food_input atype desc orig content decode
      = AgentResult.notFood (not_food_fail_message desc) ∧
    handle_universal_text_input_step s
        (process_food_input atype desc orig content decode) = s := by
  have hp : parse_food_analysis_response content decode = parse_failure_result := by
    unfold parse_food_analysis_response parse_food_analysis_body
    rw [hnoj]
  have hv : validate_food_analysis parse_failure_result
      = Except.error "AI determined this is not food" := rfl
  have hpf : process_food_input atype desc orig content decode
      = AgentResult.notFood (not_food_fail_message desc) := by
    unfold process_food_input analyze_food_text_with_langgraph
    rcases hat with h | h <;> subst h <;> rw [if_pos (by decide)] <;> rw [hp] <;> simp [hv]
  refine ⟨hp, hpf, ?_⟩
  rw [hpf]
  rfl

/-- Claim C2, witness: a concrete brace-free oracle reply on the exact
branch, with an arbitrary cleared session. -/
theorem claim_C2_witness :
    parse_food_analysis_response "просто шум" (fun _ => none) = parse_failure_result ∧
    process_food_input "exact" "еда" "еда" "просто шум" (fun _ => none)
      = AgentResult.notFood (not_food_fail_message "еда") ∧
    handle_universal_text_input_step clearedSession
        (process_food_input "exact" "еда" "еда" "просто шум" (fun _ => none))
      = clearedSession :=
  claim_C2_thm "просто шум" (fun _ => none) clearedSession "еда" "еда" "exact"
    (by decide) (Or.inl rfl)

/-! ## Helper lemmas: clamping bounds and normalizer projections -/

/-- Any portion surviving the processing loop has weight in `[50, 1000]`. -/
lemma clamp_portion_weight_bounds (o : RawPortion) (p : PortionOption)
    (h : clamp_portion o = some p) : 50 ≤ p.weight ∧ p.weight ≤ 1000 := by
  cases o with
  | notDict => simp [clamp_portion] at h
  | dict sz w d =>
    cases sz with
    | none => simp [clamp_portion] at h
    | some sz' =>
      cases w with
      | none => simp [clamp_portion] at h
      | some w' =>
        simp only [clamp_portion, Option.some_inj] at h
        rw [← h]
        constructor
        · exact le_max_left _ _
        · exact max_le (by norm_num) (min_le_right _ _)

/-- The nutrient clamp lands in `[0, hi]` whenever `0 ≤ hi`. -/
lemma clamp_nutrient_bounds (v hi : ℚ) (h0 : 0 ≤ hi) :
    0 ≤ clamp_nutrient v hi ∧ clamp_nutrient v hi ≤ hi :=
  ⟨le_max_left _ _, max_le h0 (min_le_right _ _)⟩

/-- The final 200 g fallback makes the processed portion list non-empty. -/
lemma defaultIfEmpty_ne_nil (l : List PortionOption) :
    (if l.isEmpty then
        [({ size := "exact", weight := 200, description := "стандартная порция" } : PortionOption)]
      else l) ≠ [] := by
  split
  · simp
  · next h => simpa [List.isEmpty_iff] using h

/-- The not-food branch of `_process_analysis_result`. -/
lemma process_not_food (a : RawAnalysis) (h : a.is_food ≠ some true) :
    process_analysis_result a =
      { is_food := false, food_name := "",
        description := a.description.getD "На изображении не обнаружена еда",
        portion_options := [],
        nutrition_per_100g := { calories := 0, protein := 0, fat := 0, carbs := 0 } } := by
  unfold process_analysis_result
  rw [if_pos h]

/-- The portion options computed by the food branch of
`_process_analysis_result`. -/
lemma process_portion_options (a : RawAnalysis) (hfood : a.is_food = some true) :
    (process_analysis_result a).portion_options =
      (let portions := if (a.portion_options.getD []).isEmpty
          then generate_smart_default_portions (a.food_name.getD "Неизвестное блюдо")
          else a.portion_options.getD []
       if (portions.filterMap clamp_portion).isEmpty then
         [{ size := "exact", weight := 200, description := "стандартная порция" }]
       else portions.filterMap clamp_portion) := by
  unfold process_analysis_result
  rw [if_neg (by simp [hfood])]

/-- The clamped nutrition computed by the food branch of
`_process_analysis_result`. -/
lemma process_nutrition_food (a : RawAnalysis) (hfood : a.is_food = some true) :
    (process_analysis_result a).nutrition_per_100g =
      { calories := clamp_nutrient ((validate_nutrition_dict a).calories.getD 0) 900,
        protein := clamp_nutrient ((validate_nutrition_dict a).protein.getD 0) 100,
        fat := clamp_nutrient ((validate_nutrition_dict a).fat.getD 0) 100,
        carbs := clamp_nutrient ((validate_nutrition_dict a).carbs.getD 0) 100 } := by
  unfold process_analysis_result validate_nutrition_dict
  rw [if_neg (by simp [hfood])]

/-- Peeling one failing guard off an if-chain that ended in success. -/
lemma ite_ok_elim {c : Prop} [Decidable c] {e : String} {rest : Except String Unit}
    (h : (if c then Except.error e else rest) = Except.ok ()) : rest = Except.ok () := by
  by_cases hc : c
  · rw [if_pos hc] at h
    exact Except.noConfusion h
  · rwa [if_neg hc] at h

/-- A payload accepted by `_validate_food_analysis` has a non-empty portion
list. -/
lemma validate_ok_nonempty_portions (b : RawAnalysis)
    (h : validate_food_analysis b = Except.ok ()) :
    b.portion_options.getD [] ≠ [] := by
  intro heq
  unfold validate_food_analysis at h
  have h11 := ite_ok_elim (ite_ok_elim (ite_ok_elim (ite_ok_elim (ite_ok_elim
    (ite_ok_elim (ite_ok_elim (ite_ok_elim (ite_ok_elim (ite_ok_elim (ite_ok_elim h))))))))))
  rw [heq] at h11
  rw [if_pos (show (([] : List RawPortion)).length = 0 from rfl)] at h11
  exact Except.noConfusion h11

/-- Claim C1, counterexample: on a food payload whose portion list is empty,
normalization does not raise; it returns an analysis whose portion options
are fabricated defaults the oracle never supplied. -/
theorem claim_C1_counterexample :
    emptyPortionsRaw.portion_options = some [] ∧
    (process_analysis_result emptyPortionsRaw).portion_options
      = [{ size := "small", weight := 100, description := "маленькая порция" },
         { size := "medium", weight := 200, description := "средняя порция" },
         { size := "large", weight := 300, description := "большая порция" }] := by
  refine ⟨rfl, by decide⟩

/-- Claim C1 (amended): `_process_analysis_result` never raises on a food
payload; when the incoming portion list is empty it fabricates smart default
portions from the food name (with a single 200 g fallback when everything is
dropped), so the returned analysis always carries at least one portion
option; only the food-input agent's validator rejects an empty portion
list. -/
theorem claim_C1_thm (a : RawAnalysis) (hfood : a.is_food = some true) :
    (process_analysis_result a).portion_options ≠ [] ∧
    (a.portion_options.getD [] = [] →
      (process_analysis_result a).portion_options =
        (if ((generate_smart_default_portions
              (a.food_name.getD "Неизвестное блюдо")).filterMap clamp_portion).isEmpty then
          [{ size := "exact", weight := 200, description := "стандартная порция" }]
         else (generate_smart_default_portions
              (a.food_name.getD "Неизвестное блюдо")).filterMap clamp_portion)) ∧
    (∀ b : RawAnalysis, validate_food_analysis b = Except.ok () →
      b.portion_options.getD [] ≠ []) := by
  refine ⟨?_, ?_, fun b hb => validate_ok_nonempty_portions b hb⟩
  · rw [process_portion_options a hfood]
    exact defaultIfEmpty_ne_nil _
  · intro hempty
    rw [process_portion_options a hfood]
    simp only [hempty, List.isEmpty_nil, if_true]

/-- Claim C1, witness: the amended theorem applied to the concrete empty
payload. -/
theorem claim_C1_witness :
    (process_analysis_result emptyPortionsRaw).portion_options ≠ [] ∧
    (process_analysis_result emptyPortionsRaw).portion_options =
      (if ((generate_smart_default_portions
            (emptyPortionsRaw.food_name.getD "Неизвестное блюдо")).filterMap clamp_portion).isEmpty then
        [{ size := "exact", weight := 200, description := "стандартная порция" }]
       else (generate_smart_default_portions
            (emptyPortionsRaw.food_name.getD "Неизвестное блюдо")).filterMap clamp_portion) :=
  ⟨(claim_C1_thm emptyPortionsRaw rfl).1, (claim_C1_thm emptyPortionsRaw rfl).2.1 rfl⟩

/-- Membership in the processed portion list comes either from a clamped
surviving entry or from the 200 g fallback. -/
lemma mem_process_portions (a : RawAnalysis) (hfood : a.is_food = some true)
    (p : PortionOption) (hp : p ∈ (process_analysis_result a).portion_options) :
    (∃ o, clamp_portion o = some p) ∨
      p = { size := "exact", weight := 200, description := "стандартная порция" } := by
  rw [process_portion_options a hfood] at hp
  simp only [] at hp
  by_cases he : ((if (a.portion_options.getD []).isEmpty
      then generate_smart_default_portions (a.food_name.getD "Неизвестное блюдо")
      else a.portion_options.getD []).filterMap clamp_portion).isEmpty = true
  · rw [if_pos he] at hp
    simp only [List.mem_singleton] at hp
    exact Or.inr hp
  · rw [if_neg he] at hp
    obtain ⟨o, _, hco⟩ := List.mem_filterMap.mp hp
    exact Or.inl ⟨o, hco⟩

/-- Claim C5 (amended): every analysis returned by `_process_analysis_result`
satisfies the bounds — each portion weight in `[50, 1000]`, calories per
100 g in `[0, 900]`, each macro per 100 g in `[0, 100]` — on both the
not-food and the food branch; the food-input-agent path, which skips this
normalization, is excluded (see the counterexample). -/
theorem claim_C5_thm (a : RawAnalysis) :
    (∀ p ∈ (process_analysis_result a).portion_options,
        50 ≤ p.weight ∧ p.weight ≤ 1000) ∧
    (0 ≤ (process_analysis_result a).nutrition_per_100g.calories ∧
      (process_analysis_result a).nutrition_per_100g.calories ≤ 900) ∧
    (0 ≤ (process_analysis_result a).nutrition_per_100g.protein ∧
      (process_analysis_result a).nutrition_per_100g.protein ≤ 100) ∧
    (0 ≤ (process_analysis_result a).nutrition_per_100g.fat ∧
      (process_analysis_result a).nutrition_per_100g.fat ≤ 100) ∧
    (0 ≤ (process_analysis_result a).nutrition_per_100g.carbs ∧
      (process_analysis_result a).nutrition_per_100g.carbs ≤ 100) := by
  by_cases hfood : a.is_food = some true
  · refine ⟨?_, ?_, ?_, ?_, ?_⟩
    · intro p hp
      rcases mem_process_portions a hfood p hp with ⟨o, hco⟩ | hstd
      · exact clamp_portion_weight_bounds o p hco
      · rw [hstd]
        exact ⟨by norm_num, by norm_num⟩
    · rw [process_nutrition_food a hfood]
      exact clamp_nutrient_bounds _ _ (by norm_num)
    · rw [process_nutrition_food a hfood]
      exact clamp_nutrient_bounds _ _ (by norm_num)
    · rw [process_nutrition_food a hfood]
      exact clamp_nutrient_bounds _ _ (by norm_num)
    · rw [process_nutrition_food a hfood]
      exact clamp_nutrient_bounds _ _ (by norm_num)
  · rw [process_not_food a hfood]
    refine ⟨by simp, ?_, ?_, ?_, ?_⟩ <;> exact ⟨by norm_num, by norm_num⟩

/-- Claim C5, witness: a fabricated small portion of the concrete payload
satisfies the weight bounds. -/
theorem claim_C5_witness :
    50 ≤ ({ size := "small", weight := 100,
            description := "маленькая порция" } : PortionOption).weight ∧
    ({ size := "small", weight := 100,
       description := "маленькая порция" } : PortionOption).weight ≤ 1000 :=
  (claim_C5_thm emptyPortionsRaw).1 _ (by decide)

/-- Claim C5, counterexample: the food-input-agent path runs only
`_validate_food_analysis` — no clamping — so an oracle payload with a
5000 g portion and 2000 kcal per 100 g passes validation and is returned to
the presentation layer as is, violating both bounds. -/
theorem claim_C5_counterexample :
    validate_food_analysis oversizedRaw = Except.ok () ∧
    process_food_input "exact" "торт" "торт" bracesStr (fun _ => some oversizedRaw)
      = AgentResult.analysis oversizedRaw ∧
    oversizedRaw.portion_options = some [mkP "exact" 5000 "весь торт"] ∧
    ¬((5000 : ℚ) ≤ 1000) ∧ ¬((2000 : ℚ) ≤ 900) := by
  have hval : validate_food_analysis oversizedRaw = Except.ok () := by
    unfold validate_food_analysis
    rw [if_neg (by decide), if_neg (by decide), if_neg (by decide), if_neg (by decide),
      if_neg (by decide), if_neg (by decide), if_neg (by decide), if_neg (by decide),
      if_neg (by decide), if_neg (by decide),
      if_neg (show ¬((validate_nutrition_dict oversizedRaw).calories.getD 0
          + (validate_nutrition_dict oversizedRaw).protein.getD 0
          + (validate_nutrition_dict oversizedRaw).fat.getD 0
          + (validate_nutrition_dict oversizedRaw).carbs.getD 0 = 0) from by
        norm_num [validate_nutrition_dict, oversizedRaw]),
      if_neg (by decide)]
  have hparse : analyze_food_text_with_langgraph bracesStr (fun _ => some oversizedRaw)
      = oversizedRaw := by
    unfold analyze_food_text_with_langgraph parse_food_analysis_response parse_food_analysis_body
    rw [show extract_json_slice bracesStr = some bracesStr from by decide]
  have hpf : process_food_input "exact" "торт" "торт" bracesStr (fun _ => some oversizedRaw)
      = AgentResult.analysis oversizedRaw := by
    unfold process_food_input
    rw [if_pos (by decide)]
    simp only [hparse, hval]
  exact ⟨hval, hpf, rfl, by norm_num, by norm_num⟩

/-- Claim C7, witness: the amended iff applied to the zero-age profile. -/
theorem claim_C7_witness : calculate_bmr zeroAgeUser = none :=
  (claim_C7_thm zeroAgeUser).mpr (Or.inr (Or.inr (Or.inl (by decide))))

/-- Claim C8, witness: the resolver on a concrete record and weight. -/
theorem claim_C8_witness :
    calculate_nutrition_for_portion
        { calories := some 100, protein := some 5, fat := some 5, carbs := some 10 } 200
      = Except.ok (resolved_nutrition_spec 100 5 5 10 200) :=
  (claim_C8_thm 100 5 5 10 200).1

/-- Claim C10, witness: a disconnected client yields a cache miss, not an
error. -/
theorem claim_C10_witness :
    get_cached_food_analysis none (PyOutcome.ok none)
        (fun _ => (PyOutcome.exn "boom" : PyOutcome FoodAnalysis)) = none :=
  (claim_C10_thm none (PyOutcome.ok none) (fun _ => PyOutcome.exn "boom")
    (PyOutcome.exn "x") (PyOutcome.ok ()) "c" (fun _ => none) "e").1
